import Mathlib

/-!
Shallow embedding of the rosa cluster-lifecycle provider of
osde2e-framework (pkg/providers/rosa): the account-role manager
(oidcconfig.go: createAccountRoles / getAccountRoles / deleteAccountRoles),
the cluster orchestrator (cluster.go: CreateCluster / DeleteCluster /
createCluster / validateCreateClusterOptions), the two polling loops
(waitForClusterToBeReady / waitForClusterToBeDeleted) and the
hosted-control-plane health-check predicate (hcpClusterInstallHealthChecks).

External systems (the rosa CLI, the OCM clusters-management API, terraform,
kubernetes) are modelled as environments of call results; the embedded code
threads those results exactly as the Go control flow does and records each
external call in a trace.
-/

namespace Rosa

/-- Decidable equality for collaborator results. -/
instance {ε α : Type} [DecidableEq ε] [DecidableEq α] : DecidableEq (Except ε α) :=
  fun a b =>
    match a, b with
    | .ok x, .ok y =>
      if h : x = y then .isTrue (by rw [h]) else .isFalse (by simp [h])
    | .error x, .error y =>
      if h : x = y then .isTrue (by rw [h]) else .isFalse (by simp [h])
    | .ok _, .error _ => .isFalse (by simp)
    | .error _, .ok _ => .isFalse (by simp)

/-- The four account-role ARNs, mirroring Go struct `accountRoles`
(oidcconfig.go). -/
structure AccountRoles where
  controlPlaneRoleARN : String
  installerRoleARN : String
  supportRoleARN : String
  workerRoleARN : String
  deriving DecidableEq

/-- One entry of `rosa list account-roles --output json`, with the four
fields `getAccountRoles` reads from each map. -/
structure RoleEntry where
  roleName : String
  roleARN : String
  version : String
  roleType : String
  deriving DecidableEq

/-- Structured rendering of the error values the Go code builds with
`fmt.Errorf` / the custom error structs; each constructor corresponds to one
construction site. `wrapped a e` covers `clusterError` / `accountRolesError`
/ `oidcConfigError` and the `fmt.Errorf("...: %v", err)` wrappers, with `a`
the action or format prefix. -/
inductive RosaError where
  /-- an error produced by an external system (CLI run, API call, ...) -/
  | externalCall (op : String) (msg : String)
  /-- Source: `fmt.Errorf("one or more prefixed %q account roles does not exist: %+v", prefix, roles)` -/
  | inconsistentRoles (pfx : String) (incompleteRoles : AccountRoles)
  /-- a `fmt.Errorf("... is required")` from `validateCreateClusterOptions` / `deleteCluster` -/
  | validationFailed (field : String)
  /-- Source: `fmt.Errorf("... failed to ... in the alloted attempts")` from the two poll loops -/
  | timeout (resource : String) (attempts : Nat)
  /-- Source: `fmt.Errorf("failed to parse version into semantic version: ...")` -/
  | semverParse (v : String)
  /-- Source: `fmt.Errorf("cluster %q not found: ...")` from `getCluster` -/
  | notFound (name : String)
  /-- a wrapping error struct or `fmt.Errorf("%s: %v", a, err)` -/
  | wrapped (action : String) (e : RosaError)
  deriving DecidableEq

/-! ## Account roles (oidcconfig.go: getAccountRoles / createAccountRoles) -/

/-- Models Go's `strings.HasPrefix`. -/
def strStartsWith (s pfx : String) : Bool :=
  pfx.toList.isPrefixOf s.toList

/-- The per-entry body of the loop in `getAccountRoles`: skip the entry
unless its name has the prefix and its version matches; otherwise record the
ARN under the entry's role type and bump the found counter. -/
def applyEntry (pfx ver : String) (st : AccountRoles × Nat) (e : RoleEntry) :
    AccountRoles × Nat :=
  if ¬ strStartsWith e.roleName pfx then st
  else if ver ≠ e.version then st
  else if e.roleType = "Control plane" then
    ({ st.1 with controlPlaneRoleARN := e.roleARN }, st.2 + 1)
  else if e.roleType = "Installer" then
    ({ st.1 with installerRoleARN := e.roleARN }, st.2 + 1)
  else if e.roleType = "Support" then
    ({ st.1 with supportRoleARN := e.roleARN }, st.2 + 1)
  else if e.roleType = "Worker" then
    ({ st.1 with workerRoleARN := e.roleARN }, st.2 + 1)
  else st

/-- Does this listing entry make `getAccountRoles` bump its counter?
(name has the prefix, version equal, role type one of the four known ones). -/
def matchesRole (pfx ver : String) (e : RoleEntry) : Bool :=
  strStartsWith e.roleName pfx && ver == e.version &&
    (e.roleType == "Control plane" || e.roleType == "Installer" ||
     e.roleType == "Support" || e.roleType == "Worker")

/-- Number of listing entries `getAccountRoles` counts as matching, with
multiplicity. -/
def matchCount (listing : List RoleEntry) (pfx ver : String) : Nat :=
  listing.countP (fun e => matchesRole pfx ver e)

/-- The scanning loop of `getAccountRoles`: fold `applyEntry` over the
listing starting from the zero-value role struct and counter 0. -/
def scanRoles (listing : List RoleEntry) (pfx ver : String) :
    AccountRoles × Nat :=
  listing.foldl (applyEntry pfx ver) (⟨"", "", "", ""⟩, 0)

/-- Source: `getAccountRoles` (oidcconfig.go) after a successful
`rosa list account-roles` call: scan the listing, then
0 found → `(nil, nil)`, 1–3 found → inconsistency error, 4 → the set. -/
def getAccountRoles (listing : List RoleEntry) (pfx ver : String) :
    Except RosaError (Option AccountRoles) :=
  let st := scanRoles listing pfx ver
  if st.2 = 0 then .ok none
  else if st.2 ≠ 4 then .error (.inconsistentRoles pfx st.1)
  else .ok (some st.1)

/-- The external world the account-role manager talks to: the current
listing, the outcome of a `rosa create account-roles` run, and the effect
that run has on the listing. -/
structure RoleWorld where
  listing : List RoleEntry
  createCmdResult : Except RosaError Unit
  createEffect : List RoleEntry → List RoleEntry

/-- Outcome of one `createAccountRoles` call: the returned value, the world
afterwards, and how many `rosa create account-roles` commands were issued. -/
structure EnsureOutcome where
  result : Except RosaError (Option AccountRoles)
  world : RoleWorld
  createCalls : Nat

/-- Source: `createAccountRoles` (oidcconfig.go): look up first; if all four exist
return them (no creation); if zero exist run the creation command once and
re-read; a partial set surfaced by the lookup is an error and no creation is
attempted. Errors are wrapped with action `"create"` as by
`accountRolesError`. -/
def createAccountRoles (w : RoleWorld) (pfx ver channelGroup : String) :
    EnsureOutcome :=
  match getAccountRoles w.listing pfx ver with
  | .error e => ⟨.error (.wrapped "create" e), w, 0⟩
  | .ok (some r) => ⟨.ok (some r), w, 0⟩
  | .ok none =>
    match w.createCmdResult with
    | .error e => ⟨.error (.wrapped "create" e), w, 1⟩
    | .ok () =>
      let listing' := w.createEffect w.listing
      let w' : RoleWorld := { w with listing := listing' }
      match getAccountRoles listing' pfx ver with
      | .error e =>
        ⟨.error (.wrapped "create"
          (.wrapped "unable to get account roles post account roles creation" e)), w', 1⟩
      | .ok r => ⟨.ok r, w', 1⟩

/-! ## Polling loops (cluster.go: waitForClusterToBeReady /
waitForClusterToBeDeleted) -/

/-- The state string the ready-loop body works with: on a `getClusterState`
error the Go code substitutes `"n/a"`. -/
def observedState (r : Except RosaError String) : String :=
  match r with
  | .error _ => "n/a"
  | .ok s => s

/-- The `for i := 1; i <= attempts; i++` loop of `waitForClusterToBeReady`
(cluster.go), with `remaining` iterations left of the `attempts` budget and
`made` probes already made; `getState j` is the outcome of the `(j+1)`-st
`getClusterState` call. Returns the loop's result together with the total
number of `getClusterState` invocations. -/
def waitReadyLoop (getState : Nat → Except RosaError String)
    (clusterID : String) (attempts : Nat) :
    Nat → Nat → Except RosaError Unit × Nat
  | 0, made => (.error (.timeout clusterID attempts), made)
  | remaining + 1, made =>
    if observedState (getState made) ≠ "ready" then
      waitReadyLoop getState clusterID attempts remaining (made + 1)
    else
      (.ok (), made + 1)

/-- Source: `waitForClusterToBeReady` (cluster.go): run the loop over the full
attempt budget. -/
def waitForClusterToBeReady (getState : Nat → Except RosaError String)
    (clusterID : String) (attempts : Nat) :
    Except RosaError Unit × Nat :=
  waitReadyLoop getState clusterID attempts attempts 0

/-- The loop of `waitForClusterToBeDeleted` (cluster.go), with
`getCluster j` the outcome of the `(j+1)`-st `getCluster` call. In the Go
code the body continues only when `err == nil && cluster != nil`
(`getCluster` never returns a nil cluster without an error), and otherwise
logs "no longer exists" and returns nil. -/
def waitDeletedLoop (getCluster : Nat → Except RosaError String)
    (clusterName : String) (attempts : Nat) :
    Nat → Nat → Except RosaError Unit × Nat
  | 0, made => (.error (.timeout clusterName attempts), made)
  | remaining + 1, made =>
    match getCluster made with
    | .ok _ => waitDeletedLoop getCluster clusterName attempts remaining (made + 1)
    | .error _ => (.ok (), made + 1)

/-- Source: `waitForClusterToBeDeleted` (cluster.go): run the loop over the full
attempt budget. -/
def waitForClusterToBeDeleted (getCluster : Nat → Except RosaError String)
    (clusterName : String) (attempts : Nat) :
    Except RosaError Unit × Nat :=
  waitDeletedLoop getCluster clusterName attempts attempts 0

/-! ## Hosted-control-plane health check
(cluster.go: hcpClusterInstallHealthChecks) -/

/-- One node condition (`v1.NodeCondition`): its type (`"Ready"` stands for
`v1.NodeReady`) and status (`"True"` stands for `v1.ConditionTrue`). -/
structure NodeCondition where
  condType : String
  status : String
  deriving DecidableEq

/-- A node, reduced to the conditions the health check reads. -/
structure Node where
  conditions : List NodeCondition
  deriving DecidableEq

/-- Outcome of one `client.List(ctx, &nodes)` call: an error (timeout-like
or not, for the `os.IsTimeout` branch) or the node list. -/
inductive NodeListResult where
  | err (isTimeoutErr : Bool)
  | ok (nodes : List Node)
  deriving DecidableEq

/-- The polling closure inside `hcpClusterInstallHealthChecks` (cluster.go),
as the `(done, err)` pair handed to `wait.PollUntilContextTimeout`: a
timeout-like list error → `(false, nil)` (keep polling); another list error
→ `(false, err)`; an empty node list → `(false, "no nodes available")`;
some Ready condition not True → `(false, nil)`; else `(true, nil)`. -/
def hcpNodesPredicate (r : NodeListResult) : Bool × Option RosaError :=
  match r with
  | .err true => (false, none)
  | .err false => (false, some (.externalCall "list nodes" "error"))
  | .ok nodes =>
    if nodes.length = 0 then
      (false, some (.externalCall "hcp health checks" "no nodes available"))
    else if nodes.any (fun n =>
        n.conditions.any (fun c => c.condType == "Ready" && c.status != "True")) then
      (false, none)
    else
      (true, none)

/-- Source: `wait.PollUntilContextTimeout(ctx, 30*time.Second, 10*time.Minute, true, fn)`
over the observation sequence `obs`, bounded by `fuel` observations: the
first `(true, nil)` ends the poll successfully, a `(_, err)` aborts it with
that error, and exhausting the budget is a timeout. -/
def pollNodes (obs : Nat → NodeListResult) (fuel : Nat) :
    Nat → Nat → Except RosaError Unit
  | 0, _ => .error (.timeout "hcp health checks" fuel)
  | remaining + 1, made =>
    match hcpNodesPredicate (obs made) with
    | (true, none) => .ok ()
    | (false, none) => pollNodes obs fuel remaining (made + 1)
    | (_, some e) => .error e

/-- Source: `hcpClusterInstallHealthChecks` (cluster.go): run the node poll and wrap
a failure as `fmt.Errorf("hosted control plane cluster health check failed: %v", err)`. -/
def hcpClusterInstallHealthChecks (obs : Nat → NodeListResult) (fuel : Nat) :
    Except RosaError Unit :=
  match pollNodes obs fuel fuel 0 with
  | .ok () => .ok ()
  | .error e => .error (.wrapped "hosted control plane cluster health check failed" e)

/-! ## Cluster options (cluster.go) -/

/-- Go struct `CreateClusterOptions` (cluster.go), including the unexported
fields the orchestrator fills in along the way. Go zero values are the
defaults. -/
structure CreateClusterOptions where
  ChannelGroup : String := ""
  ClusterName : String := ""
  ComputeMachineType : String := ""
  HostedCP : Bool := false
  MachineCidr : String := ""
  Mode : String := ""
  OIDCConfigManaged : Bool := false
  Properties : String := ""
  Replicas : Int := 0
  STS : Bool := false
  Version : String := ""
  accountRoles : AccountRoles := ⟨"", "", "", ""⟩
  oidcConfigID : String := ""
  subnetIDs : String := ""
  deriving DecidableEq

/-- Go struct `DeleteClusterOptions` (cluster.go). -/
structure DeleteClusterOptions where
  ClusterID : String := ""
  ClusterName : String := ""
  HostedCP : Bool := false
  STS : Bool := false
  deriving DecidableEq

/-- Source: `setDefaultCreateClusterOptions` (cluster.go): `HostedCP` forces
`STS = true`; nothing else is touched. -/
def setDefaultCreateClusterOptions (o : CreateClusterOptions) :
    CreateClusterOptions :=
  if o.HostedCP then { o with STS := true } else o

/-- Source: `setDefaultDeleteClusterOptions` (cluster.go): `HostedCP` forces
`STS = true`. -/
def setDefaultDeleteClusterOptions (o : DeleteClusterOptions) :
    DeleteClusterOptions :=
  if o.HostedCP then { o with STS := true } else o

/-- Split a character list at `'.'` separators (an executable stand-in for
`strings.Split`-style splitting; `[]` yields one empty chunk). -/
def splitDots : List Char → List (List Char)
  | [] => [[]]
  | c :: cs =>
    let r := splitDots cs
    if c = '.' then [] :: r
    else (c :: r.headD []) :: r.tail

/-- Numeric value of a digit run. -/
def digitsVal (l : List Char) : Nat :=
  l.foldl (fun n c => 10 * n + (c.toNat - '0'.toNat)) 0

/-- Models the external Masterminds `semver` library as used by
`CreateCluster`: `semver.NewVersion(options.Version)` followed by
`fmt.Sprintf("%d.%d", v.Major(), v.Minor())`. A version is one to three
dot-separated non-empty digit runs; absent minor reads as 0. -/
def semverMajorMinor (v : String) : Option String :=
  let parts := splitDots v.toList
  if 3 < parts.length then none
  else if parts.all (fun p => !p.isEmpty && p.all (fun c => c.isDigit)) then
    some (toString (digitsVal (parts.headD [])) ++ "." ++
      toString (digitsVal ((parts.drop 1).headD ['0'])))
  else none

/-- Source: `options.ChannelGroup == "" → "stable"` (validateCreateClusterOptions). -/
def fillChannelGroup (o : CreateClusterOptions) : CreateClusterOptions :=
  if o.ChannelGroup = "" then { o with ChannelGroup := "stable" } else o

/-- Source: `options.ComputeMachineType == "" → "m5.xlarge"`
(validateCreateClusterOptions). -/
def fillComputeMachineType (o : CreateClusterOptions) : CreateClusterOptions :=
  if o.ComputeMachineType = "" then { o with ComputeMachineType := "m5.xlarge" } else o

/-- Source: `options.MachineCidr == "" → "10.0.0.0/16"` (validateCreateClusterOptions). -/
def fillMachineCidr (o : CreateClusterOptions) : CreateClusterOptions :=
  if o.MachineCidr = "" then { o with MachineCidr := "10.0.0.0/16" } else o

/-- Source: `options.Replicas == 0 → 2` (validateCreateClusterOptions). -/
def fillReplicas (o : CreateClusterOptions) : CreateClusterOptions :=
  if o.Replicas = 0 then { o with Replicas := 2 } else o

/-- Source: `validateCreateClusterOptions` (cluster.go): fail on the first missing
required field, filling defaults for channel group, machine type, machine
CIDR and replica count along the way, in exactly the source's order. The
error strings are the `fmt.Errorf` messages. -/
def validateCreateClusterOptions (o : CreateClusterOptions) :
    Except RosaError CreateClusterOptions :=
  if o.ClusterName = "" then .error (.validationFailed "cluster name is required")
  else
    let o := fillChannelGroup o
    let o := fillComputeMachineType o
    let o := fillMachineCidr o
    if o.Version = "" then .error (.validationFailed "version is required")
    else
      let o := fillReplicas o
      if o.HostedCP = true ∧ o.oidcConfigID = "" then
        .error (.validationFailed "oidc config id is required for hosted control plane clusters")
      else if o.HostedCP = true ∧ o.subnetIDs = "" then
        .error (.validationFailed "subnet ids is required for hosted control plane clusters")
      else if o.accountRoles.controlPlaneRoleARN = "" then
        .error (.validationFailed "iam role arn for control plane is required")
      else if o.accountRoles.installerRoleARN = "" then
        .error (.validationFailed "iam role arn for installer is required")
      else if o.accountRoles.supportRoleARN = "" then
        .error (.validationFailed "iam role arn for support role is required")
      else if o.accountRoles.workerRoleARN = "" then
        .error (.validationFailed "iam role for worker role is required")
      else .ok o

/-! ## The orchestrator (cluster.go: CreateCluster / DeleteCluster) -/

/-- One recorded external call of the orchestrator, at the granularity of
the source's helper functions. -/
inductive CallEvent where
  /-- Source: `createAccountRoles(prefix, majorMinor, channelGroup)` -/
  | rolesEnsure (pfx majorMinor channelGroup : String)
  /-- Source: `createOIDCConfig(prefix, installerRoleArn, managed)` -/
  | oidcEnsure (pfx installerRoleArn : String) (managed : Bool)
  /-- Source: `createHostedControlPlaneVPC(name, region, workDir)` -/
  | vpcCreate (name region : String)
  /-- the `rosa create cluster` command (the create endpoint) -/
  | rosaCreateCluster (name : String)
  /-- the `getCluster` name+product lookup -/
  | clusterLookup (name : String)
  /-- the `waitForClusterToBeReady` poll phase with its attempt budget -/
  | readyPoll (clusterID : String) (attempts : Nat)
  /-- Source: `Client.KubeConfigFile(clusterID)` -/
  | credsFetch (clusterID : String)
  /-- Source: `waitForClusterHealthChecksToSucceed(kubeConfigFile, hostedCP)` -/
  | healthCheck (hostedCP : Bool)
  /-- Source: `getClusterOIDCConfig(clusterID)` -/
  | oidcResolve (clusterID : String)
  /-- the `rosa delete cluster` command -/
  | rosaDeleteCluster (clusterID : String)
  /-- the `waitForClusterToBeDeleted` poll phase with its attempt budget -/
  | deletedPoll (name : String) (attempts : Nat)
  /-- Source: `deleteOperatorRoles(clusterID)` -/
  | opRolesDelete (clusterID : String)
  /-- Source: `deleteOIDCConfigProvider(clusterID)` -/
  | oidcProviderDelete (clusterID : String)
  /-- Source: `deleteOIDCConfig(oidcConfigID)` -/
  | oidcConfigDelete (oidcConfigID : String)
  /-- Source: `deleteHostedControlPlaneVPC(name, region, workDir)` -/
  | vpcDestroy (name region : String)
  /-- Source: `deleteAccountRoles(prefix)` -/
  | accountRolesDelete (pfx : String)
  deriving DecidableEq

/-- The VPC outputs `createHostedControlPlaneVPC` returns that
`CreateCluster` consumes. -/
structure VPCOutputs where
  privateSubnet : String
  publicSubnet : String
  deriving DecidableEq

/-- Results of the external collaborators one `CreateCluster` invocation
talks to, in the mocked-collaborator sense: each field is the outcome the
corresponding call would produce when reached. -/
structure CreateEnv where
  rolesResult : Except RosaError AccountRoles
  oidcResult : Except RosaError String
  vpcResult : Except RosaError VPCOutputs
  createCmdResult : Except RosaError Unit
  lookupResult : Except RosaError String
  pollResult : Except RosaError Unit
  credsResult : Except RosaError String
  healthResult : Except RosaError Unit
  region : String

/-- Source: `createCluster` (cluster.go, unexported): validate the options - a
validation failure is wrapped as
`fmt.Errorf("cluster options validation failed: %v", err)` and nothing is
submitted - then run the `rosa create cluster` command and resolve the
cluster id by the `getCluster` lookup. Returns the result and the external
calls made. -/
def createCluster (env : CreateEnv) (o : CreateClusterOptions) :
    Except RosaError String × List CallEvent :=
  match validateCreateClusterOptions o with
  | .error e => (.error (.wrapped "cluster options validation failed" e), [])
  | .ok o' =>
    match env.createCmdResult with
    | .error e => (.error e, [.rosaCreateCluster o'.ClusterName])
    | .ok () =>
      match env.lookupResult with
      | .error e =>
        (.error e, [.rosaCreateCluster o'.ClusterName, .clusterLookup o'.ClusterName])
      | .ok clusterID =>
        (.ok clusterID, [.rosaCreateCluster o'.ClusterName, .clusterLookup o'.ClusterName])

/-- The STS block of `CreateCluster` (cluster.go lines 65-77): parse the
version, derive major.minor, ensure the account roles and store them in the
options. -/
def stsStep (env : CreateEnv) (o : CreateClusterOptions) :
    Except RosaError CreateClusterOptions × List CallEvent :=
  if o.STS = true then
    match semverMajorMinor o.Version with
    | none => (.error (.semverParse o.Version), [])
    | some majorMinor =>
      match env.rolesResult with
      | .error e => (.error e, [.rolesEnsure o.ClusterName majorMinor o.ChannelGroup])
      | .ok r =>
        (.ok { o with accountRoles := r },
         [.rolesEnsure o.ClusterName majorMinor o.ChannelGroup])
  else (.ok o, [])

/-- The hosted-control-plane block of `CreateCluster` (cluster.go lines
79-108): ensure the OIDC config, create the VPC, and store the OIDC config
id and the `"<private>,<public>"` subnet id string in the options. -/
def hcpStep (env : CreateEnv) (o : CreateClusterOptions) :
    Except RosaError CreateClusterOptions × List CallEvent :=
  if o.HostedCP = true then
    match env.oidcResult with
    | .error e =>
      (.error e, [.oidcEnsure o.ClusterName o.accountRoles.installerRoleARN o.OIDCConfigManaged])
    | .ok oidcConfigID =>
      match env.vpcResult with
      | .error e =>
        (.error e,
         [.oidcEnsure o.ClusterName o.accountRoles.installerRoleARN o.OIDCConfigManaged,
          .vpcCreate o.ClusterName env.region])
      | .ok vpc =>
        (.ok { o with
            oidcConfigID := oidcConfigID,
            subnetIDs := vpc.privateSubnet ++ "," ++ vpc.publicSubnet },
         [.oidcEnsure o.ClusterName o.accountRoles.installerRoleARN o.OIDCConfigManaged,
          .vpcCreate o.ClusterName env.region])
  else (.ok o, [])

/-- Source: `CreateCluster` (cluster.go lines 59-133): set the STS default, run the
STS and hosted-control-plane blocks, submit the create, poll for readiness
(30 attempts for hosted control plane, else 120), fetch the kubeconfig and
run the health checks. Every step's error is wrapped as
`clusterError{action: "create"}` and returned at once. -/
def CreateCluster (env : CreateEnv) (options : CreateClusterOptions) :
    Except RosaError String × List CallEvent :=
  let o := setDefaultCreateClusterOptions options
  let clusterReadyAttempts := if o.HostedCP then 30 else 120
  match stsStep env o with
  | (.error e, tr) => (.error (.wrapped "create" e), tr)
  | (.ok o, tr1) =>
    match hcpStep env o with
    | (.error e, tr2) => (.error (.wrapped "create" e), tr1 ++ tr2)
    | (.ok o, tr2) =>
      match createCluster env o with
      | (.error e, tr3) => (.error (.wrapped "create" e), tr1 ++ tr2 ++ tr3)
      | (.ok clusterID, tr3) =>
        let tr := tr1 ++ tr2 ++ tr3 ++ [.readyPoll clusterID clusterReadyAttempts]
        match env.pollResult with
        | .error e => (.error (.wrapped "create" e), tr)
        | .ok () =>
          let tr := tr ++ [.credsFetch clusterID]
          match env.credsResult with
          | .error e => (.error (.wrapped "create" e), tr)
          | .ok _ =>
            let tr := tr ++ [.healthCheck o.HostedCP]
            match env.healthResult with
            | .error e => (.error (.wrapped "create" e), tr)
            | .ok () => (.ok clusterID, tr)

/-- Results of the external collaborators one `DeleteCluster` invocation
talks to. -/
structure DeleteEnv where
  oidcResolveResult : Except RosaError String
  deleteCmdResult : Except RosaError Unit
  deletedPollResult : Except RosaError Unit
  opRolesResult : Except RosaError Unit
  oidcProviderResult : Except RosaError Unit
  oidcConfigDeleteResult : Except RosaError Unit
  vpcDestroyResult : Except RosaError Unit
  accountRolesDeleteResult : Except RosaError Unit
  region : String

/-- Source: `deleteCluster` (cluster.go, unexported): refuse an empty cluster id,
else run the `rosa delete cluster` command. -/
def deleteClusterCmd (env : DeleteEnv) (clusterID : String) :
    Except RosaError Unit × List CallEvent :=
  if clusterID = "" then
    (.error (.validationFailed "cluster ID is undefined and is required"), [])
  else
    match env.deleteCmdResult with
    | .error e => (.error e, [.rosaDeleteCluster clusterID])
    | .ok () => (.ok (), [.rosaDeleteCluster clusterID])

/-- Source: `DeleteCluster` (cluster.go lines 136-201): set the STS default; for
hosted control plane resolve the attached OIDC config (must succeed);
submit the delete; poll for absence (30 attempts); if STS delete the
operator roles then the OIDC provider registration; if hosted control plane
delete the OIDC config (by the resolved id) then destroy the VPC; if STS
delete the account roles. Every step's error is wrapped as
`clusterError{action: "delete"}` and aborts the rest. -/
def DeleteCluster (env : DeleteEnv) (options : DeleteClusterOptions) :
    Except RosaError Unit × List CallEvent :=
  let o := setDefaultDeleteClusterOptions options
  let step2 : Except RosaError String × List CallEvent :=
    if o.HostedCP then
      match env.oidcResolveResult with
      | .error e => (.error e, [.oidcResolve o.ClusterID])
      | .ok oidcConfigID => (.ok oidcConfigID, [.oidcResolve o.ClusterID])
    else (.ok "", [])
  match step2 with
  | (.error e, tr) => (.error (.wrapped "delete" e), tr)
  | (.ok oidcConfigID, tr1) =>
    match deleteClusterCmd env o.ClusterID with
    | (.error e, tr2) => (.error (.wrapped "delete" e), tr1 ++ tr2)
    | (.ok (), tr2) =>
      let tr := tr1 ++ tr2 ++ [.deletedPoll o.ClusterName 30]
      match env.deletedPollResult with
      | .error e => (.error (.wrapped "delete" e), tr)
      | .ok () =>
        let stsTr := if o.STS then [CallEvent.opRolesDelete o.ClusterID] else []
        match (if o.STS then env.opRolesResult else .ok ()) with
        | .error e => (.error (.wrapped "delete" e), tr ++ stsTr)
        | .ok () =>
          let stsTr := stsTr ++ (if o.STS then [CallEvent.oidcProviderDelete o.ClusterID] else [])
          match (if o.STS then env.oidcProviderResult else .ok ()) with
          | .error e => (.error (.wrapped "delete" e), tr ++ stsTr)
          | .ok () =>
            let tr := tr ++ stsTr
            let hcpTr := if o.HostedCP then [CallEvent.oidcConfigDelete oidcConfigID] else []
            match (if o.HostedCP then env.oidcConfigDeleteResult else .ok ()) with
            | .error e => (.error (.wrapped "delete" e), tr ++ hcpTr)
            | .ok () =>
              let hcpTr := hcpTr ++ (if o.HostedCP then [CallEvent.vpcDestroy o.ClusterName env.region] else [])
              match (if o.HostedCP then env.vpcDestroyResult else .ok ()) with
              | .error e => (.error (.wrapped "delete" e), tr ++ hcpTr)
              | .ok () =>
                let tr := tr ++ hcpTr
                let endTr := if o.STS then [CallEvent.accountRolesDelete o.ClusterName] else []
                match (if o.STS then env.accountRolesDeleteResult else .ok ()) with
                | .error e => (.error (.wrapped "delete" e), tr ++ endTr)
                | .ok () => (.ok (), tr ++ endTr)

/-! ## Derived notions and concrete instances used by the verification -/

/-- Is this event one of the six orchestration steps of the create path
(roles ensure, OIDC ensure, network create, cluster-create submission,
ready poll, health check)? The auxiliary name-lookup and kubeconfig-fetch
calls are sub-steps of the submission and health-check phases. -/
def isCoreCreateStep : CallEvent → Bool
  | .rolesEnsure _ _ _ => true
  | .oidcEnsure _ _ _ => true
  | .vpcCreate _ _ => true
  | .rosaCreateCluster _ => true
  | .readyPoll _ _ => true
  | .healthCheck _ => true
  | _ => false

/-- All Ready-type conditions present on any node report status True. -/
def nodesAllReady (nodes : List Node) : Prop :=
  ∀ n ∈ nodes, ∀ c ∈ n.conditions, c.condType = "Ready" → c.status = "True"

/-- A create environment in which every collaborator succeeds. -/
def wEnvAllOk : CreateEnv :=
  { rolesResult := .ok ⟨"cp-arn", "inst-arn", "supp-arn", "work-arn"⟩
    oidcResult := .ok "oidc-1"
    vpcResult := .ok ⟨"subnet-priv", "subnet-pub"⟩
    createCmdResult := .ok ()
    lookupResult := .ok "cid-1"
    pollResult := .ok ()
    credsResult := .ok "kubeconfig"
    healthResult := .ok ()
    region := "us-east-1" }

/-- The same environment except that the OIDC-ensure collaborator reports
success with an empty config id. -/
def wEnvOidcEmpty : CreateEnv :=
  { wEnvAllOk with oidcResult := .ok "" }

/-- A hosted-control-plane create request. -/
def wOptsHCP : CreateClusterOptions :=
  { ClusterName := "c1", Version := "4.12.6", HostedCP := true }

/-- A delete environment in which every collaborator succeeds. -/
def wDelEnvAllOk : DeleteEnv :=
  { oidcResolveResult := .ok "oidc-1"
    deleteCmdResult := .ok ()
    deletedPollResult := .ok ()
    opRolesResult := .ok ()
    oidcProviderResult := .ok ()
    oidcConfigDeleteResult := .ok ()
    vpcDestroyResult := .ok ()
    accountRolesDeleteResult := .ok ()
    region := "us-east-1" }

/-- A hosted-control-plane delete request. -/
def wDelOpts : DeleteClusterOptions :=
  { ClusterID := "cid-1", ClusterName := "c1", HostedCP := true }

/-- A cluster-state probe that never reports ready. -/
def wStateNever : Nat → Except RosaError String :=
  fun _ => .ok "installing"

/-- A cluster-state probe that reports ready on its second invocation. -/
def wStateReadySecond : Nat → Except RosaError String :=
  fun i => if i = 1 then .ok "ready" else .ok "installing"

/-- A cluster-state probe whose first invocation fails transiently and whose
second reports ready. -/
def wStateErrThenReady : Nat → Except RosaError String :=
  fun i => if i = 0 then .error (.externalCall "describe" "transient") else .ok "ready"

/-- A cluster lookup whose first invocation fails transiently and which
afterwards keeps finding the (still existing) cluster. -/
def wLookupErrThenFound : Nat → Except RosaError String :=
  fun i => if i = 0 then .error (.externalCall "describe" "transient") else .ok "cl"

/-- A listing with duplicate Installer entries, a Control plane and a
Support entry, and no Worker entry: four matches with multiplicity. -/
def wDupListing : List RoleEntry :=
  [⟨"p-ControlPlane-Role", "cp-arn", "4.12", "Control plane"⟩,
   ⟨"p-Installer-Role", "inst-arn1", "4.12", "Installer"⟩,
   ⟨"p-Installer-Role2", "inst-arn2", "4.12", "Installer"⟩,
   ⟨"p-Support-Role", "supp-arn", "4.12", "Support"⟩]

/-- A complete listing of the four account roles for prefix `"p"` and
version `"4.12"`. -/
def wFullListing : List RoleEntry :=
  [⟨"p-ControlPlane-Role", "cp-arn", "4.12", "Control plane"⟩,
   ⟨"p-Installer-Role", "inst-arn", "4.12", "Installer"⟩,
   ⟨"p-Support-Role", "supp-arn", "4.12", "Support"⟩,
   ⟨"p-Worker-Role", "work-arn", "4.12", "Worker"⟩]

/-- A role world whose listing is empty and whose creation command installs
the full role set. -/
def wRoleWorldZero : RoleWorld :=
  { listing := [], createCmdResult := .ok (), createEffect := fun _ => wFullListing }

/-- A role world whose listing holds exactly one matching role. -/
def wRoleWorldOne : RoleWorld :=
  { listing := [⟨"p-Installer-Role", "inst-arn", "4.12", "Installer"⟩]
    createCmdResult := .ok ()
    createEffect := fun l => l }

/-- A node-listing observation that always returns one Ready node. -/
def wObsReady : Nat → NodeListResult :=
  fun _ => .ok [⟨[⟨"Ready", "True"⟩]⟩]

/-! ## Helper lemmas on the polling loops -/

/-- If none of the remaining probes reports ready, the ready loop makes all
of them and times out. -/
theorem waitReadyLoop_timeout (gs : Nat → Except RosaError String)
    (cid : String) (att : Nat) :
    ∀ remaining made,
      (∀ j, j < remaining → observedState (gs (made + j)) ≠ "ready") →
      waitReadyLoop gs cid att remaining made =
        (.error (.timeout cid att), made + remaining) := by
  intro remaining
  induction remaining with
  | zero => intro made _; simp [waitReadyLoop]
  | succ r ih =>
    intro made h
    have h0 : observedState (gs made) ≠ "ready" := by
      have := h 0 (Nat.succ_pos r)
      simpa using this
    rw [waitReadyLoop, if_pos h0]
    have hrec := ih (made + 1) (fun j hj => by
      have := h (j + 1) (by omega)
      simpa [Nat.add_assoc, Nat.add_comm 1 j] using this)
    rw [hrec]
    have : made + 1 + r = made + (r + 1) := by omega
    rw [this]

/-- If the probe at offset `k` reports ready and none before it does, the
ready loop stops successfully right after that probe. -/
theorem waitReadyLoop_success (gs : Nat → Except RosaError String)
    (cid : String) (att : Nat) :
    ∀ k remaining made, k < remaining →
      (∀ i, i < k → observedState (gs (made + i)) ≠ "ready") →
      observedState (gs (made + k)) = "ready" →
      waitReadyLoop gs cid att remaining made = (.ok (), made + k + 1) := by
  intro k
  induction k with
  | zero =>
    intro remaining made hk _ hready
    obtain ⟨r, rfl⟩ : ∃ r, remaining = r + 1 := ⟨remaining - 1, by omega⟩
    simp at hready
    rw [waitReadyLoop, if_neg (by simpa using hready)]
  | succ k ih =>
    intro remaining made hk hbefore hready
    obtain ⟨r, rfl⟩ : ∃ r, remaining = r + 1 := ⟨remaining - 1, by omega⟩
    have h0 : observedState (gs made) ≠ "ready" := by
      have := hbefore 0 (Nat.succ_pos k)
      simpa using this
    rw [waitReadyLoop, if_pos h0]
    have hrec := ih r (made + 1) (by omega)
      (fun i hi => by
        have := hbefore (i + 1) (by omega)
        simpa [Nat.add_assoc, Nat.add_comm 1 i] using this)
      (by
        have : made + 1 + k = made + (k + 1) := by omega
        rw [this]; exact hready)
    rw [hrec]
    have : made + 1 + k + 1 = made + (k + 1) + 1 := by omega
    rw [this]

/-- Source: C3. For every attempt budget `n ≥ 1` of the readiness poll loop
(`waitForClusterToBeReady`, cluster.go): if no probe among the first `n`
reports state `"ready"`, the state predicate is invoked exactly `n` times
(second component) and the loop returns the timeout error naming the
cluster and the attempt count; if the probe at 0-based index `j < n`
(the `(j+1)`-st invocation) is the first to report `"ready"`, the predicate
is invoked exactly `j+1` times and the loop returns success. -/
theorem c3_poll_bounds (gs : Nat → Except RosaError String) (cid : String)
    (n : Nat) (hn : 1 ≤ n) :
    ((∀ i, i < n → observedState (gs i) ≠ "ready") →
      waitForClusterToBeReady gs cid n = (.error (.timeout cid n), n)) ∧
    (∀ j, j < n → (∀ i, i < j → observedState (gs i) ≠ "ready") →
      observedState (gs j) = "ready" →
      waitForClusterToBeReady gs cid n = (.ok (), j + 1)) := by
  constructor
  · intro h
    have := waitReadyLoop_timeout gs cid n n 0 (fun j hj => by simpa using h j hj)
    simpa [waitForClusterToBeReady] using this
  · intro j hj hbefore hready
    have := waitReadyLoop_success gs cid n j n 0 hj
      (fun i hi => by simpa using hbefore i hi) (by simpa using hready)
    simpa [waitForClusterToBeReady] using this

/-- Witness for C3 at `n = 3`: a never-ready probe is invoked exactly 3
times and times out; a probe first ready on its 2nd invocation is invoked
exactly twice and succeeds. -/
theorem c3_poll_bounds_witness :
    waitForClusterToBeReady wStateNever "c1" 3 = (.error (.timeout "c1" 3), 3) ∧
    waitForClusterToBeReady wStateReadySecond "c1" 3 = (.ok (), 2) :=
  ⟨(c3_poll_bounds wStateNever "c1" 3 (by decide)).1 (by decide),
   (c3_poll_bounds wStateReadySecond "c1" 3 (by decide)).2 1 (by decide) (by decide) (by decide)⟩

/-- Source: C4, corrected. In the cluster-ready loop a probe error is
substituted by the non-ready state `"n/a"`: it consumes exactly one attempt
and the loop continues. In the cluster-absent loop, however, a lookup error
is treated as the target condition (the cluster no longer exists): the loop
returns success immediately on that attempt instead of continuing. -/
theorem c4_predicate_error_amended :
    (∀ (gs : Nat → Except RosaError String) (cid : String)
        (att r made : Nat) (e : RosaError),
      gs made = .error e →
      waitReadyLoop gs cid att (r + 1) made =
        waitReadyLoop gs cid att r (made + 1)) ∧
    (∀ (gc : Nat → Except RosaError String) (nm : String)
        (att r made : Nat) (e : RosaError),
      gc made = .error e →
      waitDeletedLoop gc nm att (r + 1) made = (.ok (), made + 1)) := by
  constructor
  · intro gs cid att r made e h
    rw [waitReadyLoop, if_pos (by simp [observedState, h])]
  · intro gc nm att r made e h
    rw [waitDeletedLoop, h]

/-- Counterexample for C4 as stated: in the cluster-absent loop
(`waitForClusterToBeDeleted`) a transient lookup error on the first attempt
does not consume one attempt and continue — the loop immediately returns
success after exactly one invocation, even though the cluster still exists
on the next lookup. -/
theorem c4_deleted_loop_counterexample :
    wLookupErrThenFound 0 = .error (.externalCall "describe" "transient") ∧
    wLookupErrThenFound 1 = .ok "cl" ∧
    waitForClusterToBeDeleted wLookupErrThenFound "c1" 3 = (.ok (), 1) :=
  ⟨rfl, rfl, by decide⟩

/-- Witness for the corrected C4 at concrete inputs: the ready loop carries
on past an error probe; the deleted loop returns success at an error
lookup. -/
theorem c4_predicate_error_amended_witness :
    waitReadyLoop wStateErrThenReady "c1" 3 3 0 = waitReadyLoop wStateErrThenReady "c1" 3 2 1 ∧
    waitDeletedLoop wLookupErrThenFound "c1" 3 3 0 = (.ok (), 1) :=
  ⟨c4_predicate_error_amended.1 wStateErrThenReady "c1" 3 2 0
      (.externalCall "describe" "transient") rfl,
   c4_predicate_error_amended.2 wLookupErrThenFound "c1" 3 2 0
      (.externalCall "describe" "transient") rfl⟩

/-! ## Node-health check -/

/-- A successful node poll contains a successful observation. -/
theorem pollNodes_ok (obs : Nat → NodeListResult) (fuel : Nat) :
    ∀ remaining made,
      pollNodes obs fuel remaining made = .ok () →
      ∃ j, made ≤ j ∧ j < made + remaining ∧
        hcpNodesPredicate (obs j) = (true, none) := by
  intro remaining
  induction remaining with
  | zero => intro made h; simp [pollNodes] at h
  | succ r ih =>
    intro made h
    rw [pollNodes] at h
    rcases hp : hcpNodesPredicate (obs made) with ⟨b, oe⟩
    rw [hp] at h
    cases oe with
    | some e => cases b <;> simp at h
    | none =>
      cases b with
      | true => exact ⟨made, Nat.le_refl _, by omega, hp⟩
      | false =>
        obtain ⟨j, h1, h2, h3⟩ := ih (made + 1) h
        exact ⟨j, by omega, by omega, h3⟩

/-- Source: C9. The hosted-control-plane health-check predicate reports
`(done, nil)` exactly when the node listing succeeded, returned at least
one node, and every Ready-type condition present on any node has status
True; a listing error, an empty node list, or a node with a non-True Ready
condition never yields success on that observation. Moreover the
surrounding bounded poll succeeds only when some observation satisfies the
predicate. -/
theorem c9_node_health :
    (∀ r, hcpNodesPredicate r = (true, none) ↔
      ∃ nodes, r = .ok nodes ∧ nodes ≠ [] ∧ nodesAllReady nodes) ∧
    (∀ obs fuel, hcpClusterInstallHealthChecks obs fuel = .ok () →
      ∃ j, j < fuel ∧ hcpNodesPredicate (obs j) = (true, none)) := by
  constructor
  · intro r
    cases r with
    | err b => cases b <;> simp [hcpNodesPredicate]
    | ok nodes =>
      by_cases h0 : nodes.length = 0
      · rw [List.length_eq_zero] at h0
        subst h0
        simp [hcpNodesPredicate]
      · by_cases ha : nodes.any (fun n =>
            n.conditions.any (fun c => c.condType == "Ready" && c.status != "True"))
        · simp only [hcpNodesPredicate, if_neg h0, if_pos ha]
          constructor
          · intro h; exact absurd h (by simp)
          · rintro ⟨nodes', hn, -, hall⟩
            obtain rfl : nodes = nodes' := by injection hn
            obtain ⟨n, hn1, hn2⟩ := List.any_eq_true.mp ha
            obtain ⟨c, hc1, hc2⟩ := List.any_eq_true.mp hn2
            rw [Bool.and_eq_true, beq_iff_eq, bne_iff_ne] at hc2
            exact absurd (hall n hn1 c hc1 hc2.1) hc2.2
        · simp only [hcpNodesPredicate, if_neg h0, if_neg ha]
          constructor
          · intro _
            refine ⟨nodes, rfl, fun hnil => h0 (by simp [hnil]), ?_⟩
            intro n hn c hc htype
            by_contra hstatus
            exact ha (List.any_eq_true.mpr ⟨n, hn,
              List.any_eq_true.mpr ⟨c, hc, by
                rw [Bool.and_eq_true, beq_iff_eq, bne_iff_ne]
                exact ⟨htype, hstatus⟩⟩⟩)
          · intro _; trivial
  · intro obs fuel h
    unfold hcpClusterInstallHealthChecks at h
    rcases hp : pollNodes obs fuel fuel 0 with e | u
    · rw [hp] at h; simp at h
    · cases u
      obtain ⟨j, -, h2, h3⟩ := pollNodes_ok obs fuel fuel 0 hp
      exact ⟨j, by omega, h3⟩

/-- Witness for C9 at a concrete Ready node list and a one-observation
poll. -/
theorem c9_node_health_witness :
    hcpNodesPredicate (.ok [⟨[⟨"Ready", "True"⟩]⟩]) = (true, none) ∧
    (∃ j, j < 1 ∧ hcpNodesPredicate (wObsReady j) = (true, none)) :=
  ⟨(c9_node_health.1 _).mpr ⟨[⟨[⟨"Ready", "True"⟩]⟩], rfl, by decide, by
    simp [nodesAllReady]⟩,
   c9_node_health.2 wObsReady 1 (by decide)⟩

/-! ## Account-role counting -/

/-- One `applyEntry` step bumps the counter exactly on a matching entry. -/
theorem applyEntry_snd (pfx ver : String) (st : AccountRoles × Nat)
    (e : RoleEntry) :
    (applyEntry pfx ver st e).2 =
      st.2 + (if matchesRole pfx ver e then 1 else 0) := by
  unfold applyEntry matchesRole
  split_ifs with h1 h2 h3 h4 h5 h6 <;> simp_all

/-- The scan counter accumulates the multiplicity count of matching
entries. -/
theorem foldl_applyEntry_snd (pfx ver : String) :
    ∀ (listing : List RoleEntry) (st : AccountRoles × Nat),
      (listing.foldl (applyEntry pfx ver) st).2 =
        st.2 + matchCount listing pfx ver := by
  intro listing
  induction listing with
  | nil => intro st; simp [matchCount]
  | cons e es ih =>
    intro st
    rw [List.foldl_cons, ih, applyEntry_snd]
    unfold matchCount
    rw [List.countP_cons]
    by_cases hm : matchesRole pfx ver e <;> simp [hm] <;> omega

/-- The scan's found-counter is the multiplicity count. -/
theorem scanRoles_snd (listing : List RoleEntry) (pfx ver : String) :
    (scanRoles listing pfx ver).2 = matchCount listing pfx ver := by
  unfold scanRoles
  rw [foldl_applyEntry_snd]
  simp

/-- Source: C10. The account-role lookup decides completeness by counting
matching list entries with multiplicity: it returns a role set exactly when
that count is 4; on the concrete listing with two Installer entries, one
Control plane and one Support entry (no Worker), it returns a "complete"
set whose worker ARN is the empty string instead of an inconsistency. -/
theorem c10_count_with_multiplicity :
    (∀ (listing : List RoleEntry) (pfx ver : String),
      (∃ r, getAccountRoles listing pfx ver = .ok (some r)) ↔
        matchCount listing pfx ver = 4) ∧
    getAccountRoles wDupListing "p" "4.12" =
      .ok (some ⟨"cp-arn", "inst-arn2", "supp-arn", ""⟩) := by
  constructor
  · intro listing pfx ver
    have hc := scanRoles_snd listing pfx ver
    unfold getAccountRoles
    by_cases h0 : (scanRoles listing pfx ver).2 = 0
    · simp [h0]; omega
    · by_cases h4 : (scanRoles listing pfx ver).2 = 4
      · simp [h0, h4]; omega
      · simp [h0, h4]; omega
  · decide

/-- Witness for C10: on a complete listing the lookup returns a set, in
accordance with its count being 4. -/
theorem c10_count_with_multiplicity_witness :
    ∃ r, getAccountRoles wFullListing "p" "4.12" = .ok (some r) :=
  (c10_count_with_multiplicity.1 wFullListing "p" "4.12").mpr (by decide)


/-! ## Account-role manager: partial sets and idempotence -/

/-- Source: C6. When the lookup's multiplicity count is 1, 2 or 3, the
ensure operation fails with the inconsistency error naming the prefix and
the partially filled role set, and the external creation command is never
issued. -/
theorem c6_incomplete_set (w : RoleWorld) (pfx ver ch : String)
    (h : matchCount w.listing pfx ver = 1 ∨ matchCount w.listing pfx ver = 2 ∨
         matchCount w.listing pfx ver = 3) :
    (createAccountRoles w pfx ver ch).result =
      .error (.wrapped "create"
        (.inconsistentRoles pfx (scanRoles w.listing pfx ver).1)) ∧
    (createAccountRoles w pfx ver ch).createCalls = 0 := by
  have hc := scanRoles_snd w.listing pfx ver
  have hget : getAccountRoles w.listing pfx ver =
      .error (.inconsistentRoles pfx (scanRoles w.listing pfx ver).1) := by
    unfold getAccountRoles
    rw [if_neg (by omega), if_pos (by omega)]
  simp [createAccountRoles, hget]

/-- Witness for C6 on a one-role listing. -/
theorem c6_incomplete_set_witness :
    (createAccountRoles wRoleWorldOne "p" "4.12" "stable").result =
      .error (.wrapped "create"
        (.inconsistentRoles "p" (scanRoles wRoleWorldOne.listing "p" "4.12").1)) ∧
    (createAccountRoles wRoleWorldOne "p" "4.12" "stable").createCalls = 0 :=
  c6_incomplete_set wRoleWorldOne "p" "4.12" "stable" (by decide)

/-- Source: C5. The ensure operation of the account-role manager: a lookup
finding all four roles is returned unchanged with no creation call; a
lookup finding zero roles issues exactly one creation call, after which the
world's listing is the creation's effect and a successful re-read is the
returned result; consequently when a call returns a role set, it issued at
most one creation call and a second call on the resulting world returns
the same set with no creation call. -/
theorem c5_ensure_idempotent (w : RoleWorld) (pfx ver ch : String) :
    (∀ r, getAccountRoles w.listing pfx ver = .ok (some r) →
      createAccountRoles w pfx ver ch = ⟨.ok (some r), w, 0⟩) ∧
    (getAccountRoles w.listing pfx ver = .ok none →
      (createAccountRoles w pfx ver ch).createCalls = 1 ∧
      (w.createCmdResult = .ok () →
        (createAccountRoles w pfx ver ch).world.listing = w.createEffect w.listing ∧
        ∀ rr, getAccountRoles (w.createEffect w.listing) pfx ver = .ok rr →
          (createAccountRoles w pfx ver ch).result = .ok rr)) ∧
    (∀ r, (createAccountRoles w pfx ver ch).result = .ok (some r) →
      (createAccountRoles w pfx ver ch).createCalls ≤ 1 ∧
      createAccountRoles (createAccountRoles w pfx ver ch).world pfx ver ch =
        ⟨.ok (some r), (createAccountRoles w pfx ver ch).world, 0⟩) := by
  refine ⟨?_, ?_, ?_⟩
  · intro r h
    simp [createAccountRoles, h]
  · intro h
    rcases hcmd : w.createCmdResult with e | u
    · constructor
      · simp [createAccountRoles, h, hcmd]
      · intro h'; simp_all
    · cases u
      refine ⟨?_, fun _ => ⟨?_, ?_⟩⟩
      · rcases hre : getAccountRoles (w.createEffect w.listing) pfx ver with e | rr <;>
          simp [createAccountRoles, h, hcmd, hre]
      · rcases hre : getAccountRoles (w.createEffect w.listing) pfx ver with e | rr <;>
          simp [createAccountRoles, h, hcmd, hre]
      · intro rr hre
        simp [createAccountRoles, h, hcmd, hre]
  · intro r h
    rcases hg : getAccountRoles w.listing pfx ver with e | og
    · simp [createAccountRoles, hg] at h
    · rcases og with _ | r'
      · rcases hcmd : w.createCmdResult with e | u
        · simp [createAccountRoles, hg, hcmd] at h
        · cases u
          rcases hre : getAccountRoles (w.createEffect w.listing) pfx ver with e | rr
          · simp [createAccountRoles, hg, hcmd, hre] at h
          · simp only [createAccountRoles, hg, hcmd, hre] at h ⊢
            obtain rfl : rr = some r := by simpa using h
            simp [hre]
      · have h' : r' = r := by simpa [createAccountRoles, hg] using h
        subst h'
        simp [createAccountRoles, hg]

/-- Witness for C5: starting from an empty listing, ensure creates once;
a second ensure on the resulting world returns the same set without
creating. -/
theorem c5_ensure_idempotent_witness :
    (createAccountRoles wRoleWorldZero "p" "4.12" "stable").createCalls ≤ 1 ∧
    createAccountRoles (createAccountRoles wRoleWorldZero "p" "4.12" "stable").world
        "p" "4.12" "stable" =
      ⟨.ok (some ⟨"cp-arn", "inst-arn", "supp-arn", "work-arn"⟩),
       (createAccountRoles wRoleWorldZero "p" "4.12" "stable").world, 0⟩ :=
  (c5_ensure_idempotent wRoleWorldZero "p" "4.12" "stable").2.2
    ⟨"cp-arn", "inst-arn", "supp-arn", "work-arn"⟩ (by decide)

/-! ## Validation: the default fills leave the checked fields alone -/

/-- Default-filling preserves `ClusterName`. -/
@[simp] theorem fillChannelGroup_ClusterName (o : CreateClusterOptions) :
    (fillChannelGroup o).ClusterName = o.ClusterName := by
  unfold fillChannelGroup; split <;> rfl

/-- Default-filling preserves `Version`. -/
@[simp] theorem fillChannelGroup_Version (o : CreateClusterOptions) :
    (fillChannelGroup o).Version = o.Version := by
  unfold fillChannelGroup; split <;> rfl

/-- Default-filling preserves `HostedCP`. -/
@[simp] theorem fillChannelGroup_HostedCP (o : CreateClusterOptions) :
    (fillChannelGroup o).HostedCP = o.HostedCP := by
  unfold fillChannelGroup; split <;> rfl

/-- Default-filling preserves `oidcConfigID`. -/
@[simp] theorem fillChannelGroup_oidcConfigID (o : CreateClusterOptions) :
    (fillChannelGroup o).oidcConfigID = o.oidcConfigID := by
  unfold fillChannelGroup; split <;> rfl

/-- Default-filling preserves `subnetIDs`. -/
@[simp] theorem fillChannelGroup_subnetIDs (o : CreateClusterOptions) :
    (fillChannelGroup o).subnetIDs = o.subnetIDs := by
  unfold fillChannelGroup; split <;> rfl

/-- Default-filling preserves `accountRoles`. -/
@[simp] theorem fillChannelGroup_accountRoles (o : CreateClusterOptions) :
    (fillChannelGroup o).accountRoles = o.accountRoles := by
  unfold fillChannelGroup; split <;> rfl

/-- Default-filling preserves `OIDCConfigManaged`. -/
@[simp] theorem fillChannelGroup_OIDCConfigManaged (o : CreateClusterOptions) :
    (fillChannelGroup o).OIDCConfigManaged = o.OIDCConfigManaged := by
  unfold fillChannelGroup; split <;> rfl

/-- Default-filling preserves `ClusterName`. -/
@[simp] theorem fillComputeMachineType_ClusterName (o : CreateClusterOptions) :
    (fillComputeMachineType o).ClusterName = o.ClusterName := by
  unfold fillComputeMachineType; split <;> rfl

/-- Default-filling preserves `Version`. -/
@[simp] theorem fillComputeMachineType_Version (o : CreateClusterOptions) :
    (fillComputeMachineType o).Version = o.Version := by
  unfold fillComputeMachineType; split <;> rfl

/-- Default-filling preserves `HostedCP`. -/
@[simp] theorem fillComputeMachineType_HostedCP (o : CreateClusterOptions) :
    (fillComputeMachineType o).HostedCP = o.HostedCP := by
  unfold fillComputeMachineType; split <;> rfl

/-- Default-filling preserves `oidcConfigID`. -/
@[simp] theorem fillComputeMachineType_oidcConfigID (o : CreateClusterOptions) :
    (fillComputeMachineType o).oidcConfigID = o.oidcConfigID := by
  unfold fillComputeMachineType; split <;> rfl

/-- Default-filling preserves `subnetIDs`. -/
@[simp] theorem fillComputeMachineType_subnetIDs (o : CreateClusterOptions) :
    (fillComputeMachineType o).subnetIDs = o.subnetIDs := by
  unfold fillComputeMachineType; split <;> rfl

/-- Default-filling preserves `accountRoles`. -/
@[simp] theorem fillComputeMachineType_accountRoles (o : CreateClusterOptions) :
    (fillComputeMachineType o).accountRoles = o.accountRoles := by
  unfold fillComputeMachineType; split <;> rfl

/-- Default-filling preserves `OIDCConfigManaged`. -/
@[simp] theorem fillComputeMachineType_OIDCConfigManaged (o : CreateClusterOptions) :
    (fillComputeMachineType o).OIDCConfigManaged = o.OIDCConfigManaged := by
  unfold fillComputeMachineType; split <;> rfl

/-- Default-filling preserves `ChannelGroup`. -/
@[simp] theorem fillComputeMachineType_ChannelGroup (o : CreateClusterOptions) :
    (fillComputeMachineType o).ChannelGroup = o.ChannelGroup := by
  unfold fillComputeMachineType; split <;> rfl

/-- Default-filling preserves `ClusterName`. -/
@[simp] theorem fillMachineCidr_ClusterName (o : CreateClusterOptions) :
    (fillMachineCidr o).ClusterName = o.ClusterName := by
  unfold fillMachineCidr; split <;> rfl

/-- Default-filling preserves `Version`. -/
@[simp] theorem fillMachineCidr_Version (o : CreateClusterOptions) :
    (fillMachineCidr o).Version = o.Version := by
  unfold fillMachineCidr; split <;> rfl

/-- Default-filling preserves `HostedCP`. -/
@[simp] theorem fillMachineCidr_HostedCP (o : CreateClusterOptions) :
    (fillMachineCidr o).HostedCP = o.HostedCP := by
  unfold fillMachineCidr; split <;> rfl

/-- Default-filling preserves `oidcConfigID`. -/
@[simp] theorem fillMachineCidr_oidcConfigID (o : CreateClusterOptions) :
    (fillMachineCidr o).oidcConfigID = o.oidcConfigID := by
  unfold fillMachineCidr; split <;> rfl

/-- Default-filling preserves `subnetIDs`. -/
@[simp] theorem fillMachineCidr_subnetIDs (o : CreateClusterOptions) :
    (fillMachineCidr o).subnetIDs = o.subnetIDs := by
  unfold fillMachineCidr; split <;> rfl

/-- Default-filling preserves `accountRoles`. -/
@[simp] theorem fillMachineCidr_accountRoles (o : CreateClusterOptions) :
    (fillMachineCidr o).accountRoles = o.accountRoles := by
  unfold fillMachineCidr; split <;> rfl

/-- Default-filling preserves `OIDCConfigManaged`. -/
@[simp] theorem fillMachineCidr_OIDCConfigManaged (o : CreateClusterOptions) :
    (fillMachineCidr o).OIDCConfigManaged = o.OIDCConfigManaged := by
  unfold fillMachineCidr; split <;> rfl

/-- Default-filling preserves `ChannelGroup`. -/
@[simp] theorem fillMachineCidr_ChannelGroup (o : CreateClusterOptions) :
    (fillMachineCidr o).ChannelGroup = o.ChannelGroup := by
  unfold fillMachineCidr; split <;> rfl

/-- Default-filling preserves `ClusterName`. -/
@[simp] theorem fillReplicas_ClusterName (o : CreateClusterOptions) :
    (fillReplicas o).ClusterName = o.ClusterName := by
  unfold fillReplicas; split <;> rfl

/-- Default-filling preserves `Version`. -/
@[simp] theorem fillReplicas_Version (o : CreateClusterOptions) :
    (fillReplicas o).Version = o.Version := by
  unfold fillReplicas; split <;> rfl

/-- Default-filling preserves `HostedCP`. -/
@[simp] theorem fillReplicas_HostedCP (o : CreateClusterOptions) :
    (fillReplicas o).HostedCP = o.HostedCP := by
  unfold fillReplicas; split <;> rfl

/-- Default-filling preserves `oidcConfigID`. -/
@[simp] theorem fillReplicas_oidcConfigID (o : CreateClusterOptions) :
    (fillReplicas o).oidcConfigID = o.oidcConfigID := by
  unfold fillReplicas; split <;> rfl

/-- Default-filling preserves `subnetIDs`. -/
@[simp] theorem fillReplicas_subnetIDs (o : CreateClusterOptions) :
    (fillReplicas o).subnetIDs = o.subnetIDs := by
  unfold fillReplicas; split <;> rfl

/-- Default-filling preserves `accountRoles`. -/
@[simp] theorem fillReplicas_accountRoles (o : CreateClusterOptions) :
    (fillReplicas o).accountRoles = o.accountRoles := by
  unfold fillReplicas; split <;> rfl

/-- Default-filling preserves `OIDCConfigManaged`. -/
@[simp] theorem fillReplicas_OIDCConfigManaged (o : CreateClusterOptions) :
    (fillReplicas o).OIDCConfigManaged = o.OIDCConfigManaged := by
  unfold fillReplicas; split <;> rfl

/-- Default-filling preserves `ChannelGroup`. -/
@[simp] theorem fillReplicas_ChannelGroup (o : CreateClusterOptions) :
    (fillReplicas o).ChannelGroup = o.ChannelGroup := by
  unfold fillReplicas; split <;> rfl

/-- Shorthand for the fully default-filled options value `validateCreateClusterOptions`
returns on success. -/
def filledOptions (o : CreateClusterOptions) : CreateClusterOptions :=
  fillReplicas (fillMachineCidr (fillComputeMachineType (fillChannelGroup o)))

/-- When every required field is present, validation succeeds and returns
the default-filled options. -/
theorem validate_ok (o : CreateClusterOptions)
    (hn : o.ClusterName ≠ "") (hv : o.Version ≠ "")
    (hh : o.HostedCP = true → o.oidcConfigID ≠ "" ∧ o.subnetIDs ≠ "")
    (h1 : o.accountRoles.controlPlaneRoleARN ≠ "")
    (h2 : o.accountRoles.installerRoleARN ≠ "")
    (h3 : o.accountRoles.supportRoleARN ≠ "")
    (h4 : o.accountRoles.workerRoleARN ≠ "") :
    validateCreateClusterOptions o = .ok (filledOptions o) := by
  by_cases hcp : o.HostedCP = true
  · obtain ⟨ho, hs⟩ := hh hcp
    simp [validateCreateClusterOptions, filledOptions, hn, hv, ho, hs, h1, h2, h3, h4]
  · have hcp' : o.HostedCP = false := by simpa using hcp
    simp [validateCreateClusterOptions, filledOptions, hn, hv, hcp', h1, h2, h3, h4]


/-- Shorthand for the submission-level validation failure wrapper of
`createCluster`. -/
def valErr (msg : String) : Except RosaError String × List CallEvent :=
  (.error (.wrapped "cluster options validation failed" (.validationFailed msg)), [])

/-- Source: C7. For every create request missing a required field (name,
version, any of the four role ARNs, or — for hosted control plane — the
OIDC config id or subnet ids), the cluster-create submission fails with a
validation error naming the missing field and performs no external call at
all: the recorded call list is empty, so in particular zero calls to the
create endpoint occur. -/
theorem c7_validation_fail_fast (env : CreateEnv) (o : CreateClusterOptions) :
    (o.ClusterName = "" →
      createCluster env o = valErr "cluster name is required") ∧
    (o.ClusterName ≠ "" → o.Version = "" →
      createCluster env o = valErr "version is required") ∧
    (o.ClusterName ≠ "" → o.Version ≠ "" → o.HostedCP = true →
      o.oidcConfigID = "" →
      createCluster env o =
        valErr "oidc config id is required for hosted control plane clusters") ∧
    (o.ClusterName ≠ "" → o.Version ≠ "" → o.HostedCP = true →
      o.oidcConfigID ≠ "" → o.subnetIDs = "" →
      createCluster env o =
        valErr "subnet ids is required for hosted control plane clusters") ∧
    (o.ClusterName ≠ "" → o.Version ≠ "" →
      (o.HostedCP = true → o.oidcConfigID ≠ "" ∧ o.subnetIDs ≠ "") →
      o.accountRoles.controlPlaneRoleARN = "" →
      createCluster env o = valErr "iam role arn for control plane is required") ∧
    (o.ClusterName ≠ "" → o.Version ≠ "" →
      (o.HostedCP = true → o.oidcConfigID ≠ "" ∧ o.subnetIDs ≠ "") →
      o.accountRoles.controlPlaneRoleARN ≠ "" →
      o.accountRoles.installerRoleARN = "" →
      createCluster env o = valErr "iam role arn for installer is required") ∧
    (o.ClusterName ≠ "" → o.Version ≠ "" →
      (o.HostedCP = true → o.oidcConfigID ≠ "" ∧ o.subnetIDs ≠ "") →
      o.accountRoles.controlPlaneRoleARN ≠ "" →
      o.accountRoles.installerRoleARN ≠ "" →
      o.accountRoles.supportRoleARN = "" →
      createCluster env o = valErr "iam role arn for support role is required") ∧
    (o.ClusterName ≠ "" → o.Version ≠ "" →
      (o.HostedCP = true → o.oidcConfigID ≠ "" ∧ o.subnetIDs ≠ "") →
      o.accountRoles.controlPlaneRoleARN ≠ "" →
      o.accountRoles.installerRoleARN ≠ "" →
      o.accountRoles.supportRoleARN ≠ "" →
      o.accountRoles.workerRoleARN = "" →
      createCluster env o = valErr "iam role for worker role is required") := by
  refine ⟨?_, ?_, ?_, ?_, ?_, ?_, ?_, ?_⟩
  · intro h
    simp [createCluster, validateCreateClusterOptions, valErr, h]
  · intro h1 h2
    simp [createCluster, validateCreateClusterOptions, valErr, h1, h2]
  · intro h1 h2 h3 h4
    simp [createCluster, validateCreateClusterOptions, valErr, h1, h2, h3, h4]
  · intro h1 h2 h3 h4 h5
    simp [createCluster, validateCreateClusterOptions, valErr, h1, h2, h3, h4, h5]
  · intro h1 h2 hh h5
    by_cases hcp : o.HostedCP = true
    · obtain ⟨ho, hs⟩ := hh hcp
      simp [createCluster, validateCreateClusterOptions, valErr, h1, h2, ho, hs, h5]
    · have hcp' : o.HostedCP = false := by simpa using hcp
      simp [createCluster, validateCreateClusterOptions, valErr, h1, h2, hcp', h5]
  · intro h1 h2 hh h5 h6
    by_cases hcp : o.HostedCP = true
    · obtain ⟨ho, hs⟩ := hh hcp
      simp [createCluster, validateCreateClusterOptions, valErr, h1, h2, ho, hs, h5, h6]
    · have hcp' : o.HostedCP = false := by simpa using hcp
      simp [createCluster, validateCreateClusterOptions, valErr, h1, h2, hcp', h5, h6]
  · intro h1 h2 hh h5 h6 h7
    by_cases hcp : o.HostedCP = true
    · obtain ⟨ho, hs⟩ := hh hcp
      simp [createCluster, validateCreateClusterOptions, valErr, h1, h2, ho, hs, h5, h6, h7]
    · have hcp' : o.HostedCP = false := by simpa using hcp
      simp [createCluster, validateCreateClusterOptions, valErr, h1, h2, hcp', h5, h6, h7]
  · intro h1 h2 hh h5 h6 h7 h8
    by_cases hcp : o.HostedCP = true
    · obtain ⟨ho, hs⟩ := hh hcp
      simp [createCluster, validateCreateClusterOptions, valErr, h1, h2, ho, hs, h5, h6, h7, h8]
    · have hcp' : o.HostedCP = false := by simpa using hcp
      simp [createCluster, validateCreateClusterOptions, valErr, h1, h2, hcp', h5, h6, h7, h8]

/-- Witness for C7: a hosted-control-plane request without an OIDC config
id fails validation with no call recorded. -/
theorem c7_validation_fail_fast_witness :
    createCluster wEnvAllOk wOptsHCP =
      valErr "oidc config id is required for hosted control plane clusters" :=
  (c7_validation_fail_fast wEnvAllOk wOptsHCP).2.2.1
    (by decide) (by decide) (by decide) (by decide)

/-! ## The create-side STS default touches only the STS flag -/

/-- The STS default leaves `ClusterName` unchanged. -/
@[simp] theorem setDefaultCreate_ClusterName (o : CreateClusterOptions) :
    (setDefaultCreateClusterOptions o).ClusterName = o.ClusterName := by
  unfold setDefaultCreateClusterOptions; split <;> rfl

/-- The STS default leaves `Version` unchanged. -/
@[simp] theorem setDefaultCreate_Version (o : CreateClusterOptions) :
    (setDefaultCreateClusterOptions o).Version = o.Version := by
  unfold setDefaultCreateClusterOptions; split <;> rfl

/-- The STS default leaves `ChannelGroup` unchanged. -/
@[simp] theorem setDefaultCreate_ChannelGroup (o : CreateClusterOptions) :
    (setDefaultCreateClusterOptions o).ChannelGroup = o.ChannelGroup := by
  unfold setDefaultCreateClusterOptions; split <;> rfl

/-- The STS default leaves `ComputeMachineType` unchanged. -/
@[simp] theorem setDefaultCreate_ComputeMachineType (o : CreateClusterOptions) :
    (setDefaultCreateClusterOptions o).ComputeMachineType = o.ComputeMachineType := by
  unfold setDefaultCreateClusterOptions; split <;> rfl

/-- The STS default leaves `MachineCidr` unchanged. -/
@[simp] theorem setDefaultCreate_MachineCidr (o : CreateClusterOptions) :
    (setDefaultCreateClusterOptions o).MachineCidr = o.MachineCidr := by
  unfold setDefaultCreateClusterOptions; split <;> rfl

/-- The STS default leaves `Replicas` unchanged. -/
@[simp] theorem setDefaultCreate_Replicas (o : CreateClusterOptions) :
    (setDefaultCreateClusterOptions o).Replicas = o.Replicas := by
  unfold setDefaultCreateClusterOptions; split <;> rfl

/-- The STS default leaves `HostedCP` unchanged. -/
@[simp] theorem setDefaultCreate_HostedCP (o : CreateClusterOptions) :
    (setDefaultCreateClusterOptions o).HostedCP = o.HostedCP := by
  unfold setDefaultCreateClusterOptions; split <;> rfl

/-- The STS default leaves `OIDCConfigManaged` unchanged. -/
@[simp] theorem setDefaultCreate_OIDCConfigManaged (o : CreateClusterOptions) :
    (setDefaultCreateClusterOptions o).OIDCConfigManaged = o.OIDCConfigManaged := by
  unfold setDefaultCreateClusterOptions; split <;> rfl

/-- The STS default leaves `oidcConfigID` unchanged. -/
@[simp] theorem setDefaultCreate_oidcConfigID (o : CreateClusterOptions) :
    (setDefaultCreateClusterOptions o).oidcConfigID = o.oidcConfigID := by
  unfold setDefaultCreateClusterOptions; split <;> rfl

/-- The STS default leaves `subnetIDs` unchanged. -/
@[simp] theorem setDefaultCreate_subnetIDs (o : CreateClusterOptions) :
    (setDefaultCreateClusterOptions o).subnetIDs = o.subnetIDs := by
  unfold setDefaultCreateClusterOptions; split <;> rfl

/-- The STS default leaves `accountRoles` unchanged. -/
@[simp] theorem setDefaultCreate_accountRoles (o : CreateClusterOptions) :
    (setDefaultCreateClusterOptions o).accountRoles = o.accountRoles := by
  unfold setDefaultCreateClusterOptions; split <;> rfl

/-- The STS default sets exactly `STS := STS ∨ HostedCP`. -/
@[simp] theorem setDefaultCreate_STS (o : CreateClusterOptions) :
    (setDefaultCreateClusterOptions o).STS = (o.STS || o.HostedCP) := by
  unfold setDefaultCreateClusterOptions
  cases hH : o.HostedCP <;> simp [hH]

/-- Nonemptiness of the joined subnet-id string. -/
theorem subnet_join_ne_empty (a b : String) : a ++ "," ++ b ≠ "" := by
  intro h
  have hlen : (a ++ "," ++ b).length = 0 := by rw [h]; rfl
  rw [String.length_append, String.length_append] at hlen
  have hone : (",").length = 1 := rfl
  omega

/-- Every create run's trace starts with the STS block's calls. -/
theorem createCluster_trace_sts_prefix (env : CreateEnv)
    (o : CreateClusterOptions) :
    ∃ rest, (CreateCluster env o).2 =
      (stsStep env (setDefaultCreateClusterOptions o)).2 ++ rest := by
  simp only [CreateCluster]
  rcases h1 : stsStep env (setDefaultCreateClusterOptions o) with ⟨res1, tr1⟩
  cases res1 with
  | error e => exact ⟨[], by simp⟩
  | ok o2 =>
    rcases h2 : hcpStep env o2 with ⟨res2, tr2⟩
    cases res2 with
    | error e => exact ⟨tr2, by simp [h2]⟩
    | ok o3 =>
      rcases h3 : createCluster env o3 with ⟨res3, tr3⟩
      cases res3 with
      | error e => exact ⟨tr2 ++ tr3, by simp [h2, h3]⟩
      | ok cid =>
        rcases hp : env.pollResult with e | u
        · exact ⟨tr2 ++ tr3 ++ [.readyPoll cid
            (if (setDefaultCreateClusterOptions o).HostedCP then 30 else 120)],
            by simp [h2, h3, hp]⟩
        · cases u
          rcases hc : env.credsResult with e | kc
          · exact ⟨tr2 ++ tr3 ++ [.readyPoll cid
              (if (setDefaultCreateClusterOptions o).HostedCP then 30 else 120),
              .credsFetch cid], by simp [h2, h3, hp, hc]⟩
          · rcases hh : env.healthResult with e | u
            · exact ⟨tr2 ++ tr3 ++ [.readyPoll cid
                (if (setDefaultCreateClusterOptions o).HostedCP then 30 else 120),
                .credsFetch cid, .healthCheck o3.HostedCP], by simp [h2, h3, hp, hc, hh]⟩
            · cases u
              exact ⟨tr2 ++ tr3 ++ [.readyPoll cid
                (if (setDefaultCreateClusterOptions o).HostedCP then 30 else 120),
                .credsFetch cid, .healthCheck o3.HostedCP], by simp [h2, h3, hp, hc, hh]⟩

/-- Counterexample for C8 as stated: a hosted-control-plane create whose
OIDC-ensure collaborator reports an empty config id ends in a validation
failure, yet the roles-ensure, OIDC-ensure and network-create external
calls were already made (the trace is non-empty), and the roles-ensure
call received the raw, un-defaulted channel group `""` instead of
`"stable"`: default-filling and required-option validation do not happen
before the external calls, and a validation failure is not free of side
effects on external systems. -/
theorem c8_defaults_order_counterexample :
    (CreateCluster wEnvOidcEmpty wOptsHCP).1 =
      .error (.wrapped "create" (.wrapped "cluster options validation failed"
        (.validationFailed "oidc config id is required for hosted control plane clusters"))) ∧
    (CreateCluster wEnvOidcEmpty wOptsHCP).2 =
      [.rolesEnsure "c1" "4.12" "", .oidcEnsure "c1" "inst-arn" false,
       .vpcCreate "c1" "us-east-1"] := by
  constructor <;> decide

/-- Source: C8, amended. Before any external call the only defaulting
applied is `STS := STS ∨ HostedCP`; the first external call of an STS-mode
create is the account-roles ensure and it receives the caller's raw
channel group and cluster name (the channel-group/machine-type/CIDR/replica
defaults and the required-field validation are applied only later, inside
the cluster-create submission step); a validation failure still guarantees
that the submission makes no external call, in particular zero calls to
the create endpoint. -/
theorem c8_defaults_order_amended :
    (∀ o : CreateClusterOptions,
      (setDefaultCreateClusterOptions o).ClusterName = o.ClusterName ∧
      (setDefaultCreateClusterOptions o).ChannelGroup = o.ChannelGroup ∧
      (setDefaultCreateClusterOptions o).ComputeMachineType = o.ComputeMachineType ∧
      (setDefaultCreateClusterOptions o).MachineCidr = o.MachineCidr ∧
      (setDefaultCreateClusterOptions o).Replicas = o.Replicas ∧
      (setDefaultCreateClusterOptions o).Version = o.Version ∧
      (setDefaultCreateClusterOptions o).STS = (o.STS || o.HostedCP)) ∧
    (∀ (env : CreateEnv) (o : CreateClusterOptions) (mm : String),
      (o.STS = true ∨ o.HostedCP = true) →
      semverMajorMinor o.Version = some mm →
      ((CreateCluster env o).2).head? =
        some (.rolesEnsure o.ClusterName mm o.ChannelGroup)) ∧
    (∀ (env : CreateEnv) (o : CreateClusterOptions) (e : RosaError),
      validateCreateClusterOptions o = .error e →
      createCluster env o =
        (.error (.wrapped "cluster options validation failed" e), [])) := by
  refine ⟨?_, ?_, ?_⟩
  · intro o
    refine ⟨by simp, by simp, by simp, by simp, by simp, by simp, by simp⟩
  · intro env o mm hsts hmm
    obtain ⟨rest, hrest⟩ := createCluster_trace_sts_prefix env o
    rw [hrest]
    have hS : (setDefaultCreateClusterOptions o).STS = true := by
      rcases hsts with h | h <;> simp [h]
    have hV : semverMajorMinor (setDefaultCreateClusterOptions o).Version = some mm := by
      simpa using hmm
    rcases hr : env.rolesResult with e | r <;>
      simp [stsStep, hS, hV, hr, hsts, hmm]
  · intro env o e h
    simp [createCluster, h]

/-- Witness for the amended C8 at concrete inputs: the first recorded call
of the all-collaborators-succeed hosted-control-plane run is the
roles-ensure call with the raw empty channel group, and a concrete
validation failure performs no call. -/
theorem c8_defaults_order_amended_witness :
    ((CreateCluster wEnvAllOk wOptsHCP).2).head? =
      some (.rolesEnsure "c1" "4.12" "") ∧
    createCluster wEnvAllOk { ClusterName := "" } =
      (.error (.wrapped "cluster options validation failed"
        (.validationFailed "cluster name is required")), []) :=
  ⟨c8_defaults_order_amended.2.1 wEnvAllOk wOptsHCP "4.12" (Or.inr rfl) (by decide),
   c8_defaults_order_amended.2.2 wEnvAllOk { ClusterName := "" }
     (.validationFailed "cluster name is required") (by decide)⟩


/-- A parseable version string is non-empty. -/
theorem semver_ne_empty {v mm : String} (h : semverMajorMinor v = some mm) :
    v ≠ "" := by
  intro he
  subst he
  have hnone : semverMajorMinor "" = none := by decide
  rw [hnone] at h
  cases h

/-- Source: C1. For a hosted-control-plane create with a parseable version:
when every collaborator succeeds (and returns usable values), the run
succeeds and its external calls, projected to the six orchestration steps,
are exactly roles-ensure, OIDC-ensure, network create, cluster-create
submission, ready poll (30 attempts) and health check, in that order; and
when the k-th step's collaborator fails (all earlier ones succeeding), the
run returns that error immediately and the trace is exactly the calls up
to and including the failing step — none of the later steps is invoked. -/
theorem c1_create_order (o : CreateClusterOptions) (mm : String)
    (hH : o.HostedCP = true) (hname : o.ClusterName ≠ "")
    (hmm : semverMajorMinor o.Version = some mm) :
    (∀ (env : CreateEnv) (r : AccountRoles) (oid : String) (vpc : VPCOutputs)
        (cid kc : String),
      env.rolesResult = .ok r →
      r.controlPlaneRoleARN ≠ "" → r.installerRoleARN ≠ "" →
      r.supportRoleARN ≠ "" → r.workerRoleARN ≠ "" →
      env.oidcResult = .ok oid → oid ≠ "" →
      env.vpcResult = .ok vpc →
      env.createCmdResult = .ok () →
      env.lookupResult = .ok cid →
      env.pollResult = .ok () →
      env.credsResult = .ok kc →
      env.healthResult = .ok () →
      (CreateCluster env o).1 = .ok cid ∧
      ((CreateCluster env o).2).filter isCoreCreateStep =
        [.rolesEnsure o.ClusterName mm o.ChannelGroup,
         .oidcEnsure o.ClusterName r.installerRoleARN o.OIDCConfigManaged,
         .vpcCreate o.ClusterName env.region,
         .rosaCreateCluster o.ClusterName,
         .readyPoll cid 30,
         .healthCheck true]) ∧
    (∀ (env : CreateEnv) (e : RosaError),
      env.rolesResult = .error e →
      CreateCluster env o = (.error (.wrapped "create" e),
        [.rolesEnsure o.ClusterName mm o.ChannelGroup])) ∧
    (∀ (env : CreateEnv) (r : AccountRoles) (e : RosaError),
      env.rolesResult = .ok r → env.oidcResult = .error e →
      CreateCluster env o = (.error (.wrapped "create" e),
        [.rolesEnsure o.ClusterName mm o.ChannelGroup,
         .oidcEnsure o.ClusterName r.installerRoleARN o.OIDCConfigManaged])) ∧
    (∀ (env : CreateEnv) (r : AccountRoles) (oid : String) (e : RosaError),
      env.rolesResult = .ok r → env.oidcResult = .ok oid →
      env.vpcResult = .error e →
      CreateCluster env o = (.error (.wrapped "create" e),
        [.rolesEnsure o.ClusterName mm o.ChannelGroup,
         .oidcEnsure o.ClusterName r.installerRoleARN o.OIDCConfigManaged,
         .vpcCreate o.ClusterName env.region])) ∧
    (∀ (env : CreateEnv) (r : AccountRoles) (oid : String) (vpc : VPCOutputs)
        (e : RosaError),
      env.rolesResult = .ok r →
      r.controlPlaneRoleARN ≠ "" → r.installerRoleARN ≠ "" →
      r.supportRoleARN ≠ "" → r.workerRoleARN ≠ "" →
      env.oidcResult = .ok oid → oid ≠ "" →
      env.vpcResult = .ok vpc →
      env.createCmdResult = .error e →
      CreateCluster env o = (.error (.wrapped "create" e),
        [.rolesEnsure o.ClusterName mm o.ChannelGroup,
         .oidcEnsure o.ClusterName r.installerRoleARN o.OIDCConfigManaged,
         .vpcCreate o.ClusterName env.region,
         .rosaCreateCluster o.ClusterName])) ∧
    (∀ (env : CreateEnv) (r : AccountRoles) (oid : String) (vpc : VPCOutputs)
        (e : RosaError),
      env.rolesResult = .ok r →
      r.controlPlaneRoleARN ≠ "" → r.installerRoleARN ≠ "" →
      r.supportRoleARN ≠ "" → r.workerRoleARN ≠ "" →
      env.oidcResult = .ok oid → oid ≠ "" →
      env.vpcResult = .ok vpc →
      env.createCmdResult = .ok () →
      env.lookupResult = .error e →
      CreateCluster env o = (.error (.wrapped "create" e),
        [.rolesEnsure o.ClusterName mm o.ChannelGroup,
         .oidcEnsure o.ClusterName r.installerRoleARN o.OIDCConfigManaged,
         .vpcCreate o.ClusterName env.region,
         .rosaCreateCluster o.ClusterName,
         .clusterLookup o.ClusterName])) ∧
    (∀ (env : CreateEnv) (r : AccountRoles) (oid : String) (vpc : VPCOutputs)
        (cid : String) (e : RosaError),
      env.rolesResult = .ok r →
      r.controlPlaneRoleARN ≠ "" → r.installerRoleARN ≠ "" →
      r.supportRoleARN ≠ "" → r.workerRoleARN ≠ "" →
      env.oidcResult = .ok oid → oid ≠ "" →
      env.vpcResult = .ok vpc →
      env.createCmdResult = .ok () →
      env.lookupResult = .ok cid →
      env.pollResult = .error e →
      CreateCluster env o = (.error (.wrapped "create" e),
        [.rolesEnsure o.ClusterName mm o.ChannelGroup,
         .oidcEnsure o.ClusterName r.installerRoleARN o.OIDCConfigManaged,
         .vpcCreate o.ClusterName env.region,
         .rosaCreateCluster o.ClusterName,
         .clusterLookup o.ClusterName,
         .readyPoll cid 30])) ∧
    (∀ (env : CreateEnv) (r : AccountRoles) (oid : String) (vpc : VPCOutputs)
        (cid : String) (e : RosaError),
      env.rolesResult = .ok r →
      r.controlPlaneRoleARN ≠ "" → r.installerRoleARN ≠ "" →
      r.supportRoleARN ≠ "" → r.workerRoleARN ≠ "" →
      env.oidcResult = .ok oid → oid ≠ "" →
      env.vpcResult = .ok vpc →
      env.createCmdResult = .ok () →
      env.lookupResult = .ok cid →
      env.pollResult = .ok () →
      env.credsResult = .error e →
      CreateCluster env o = (.error (.wrapped "create" e),
        [.rolesEnsure o.ClusterName mm o.ChannelGroup,
         .oidcEnsure o.ClusterName r.installerRoleARN o.OIDCConfigManaged,
         .vpcCreate o.ClusterName env.region,
         .rosaCreateCluster o.ClusterName,
         .clusterLookup o.ClusterName,
         .readyPoll cid 30,
         .credsFetch cid])) ∧
    (∀ (env : CreateEnv) (r : AccountRoles) (oid : String) (vpc : VPCOutputs)
        (cid kc : String) (e : RosaError),
      env.rolesResult = .ok r →
      r.controlPlaneRoleARN ≠ "" → r.installerRoleARN ≠ "" →
      r.supportRoleARN ≠ "" → r.workerRoleARN ≠ "" →
      env.oidcResult = .ok oid → oid ≠ "" →
      env.vpcResult = .ok vpc →
      env.createCmdResult = .ok () →
      env.lookupResult = .ok cid →
      env.pollResult = .ok () →
      env.credsResult = .ok kc →
      env.healthResult = .error e →
      CreateCluster env o = (.error (.wrapped "create" e),
        [.rolesEnsure o.ClusterName mm o.ChannelGroup,
         .oidcEnsure o.ClusterName r.installerRoleARN o.OIDCConfigManaged,
         .vpcCreate o.ClusterName env.region,
         .rosaCreateCluster o.ClusterName,
         .clusterLookup o.ClusterName,
         .readyPoll cid 30,
         .credsFetch cid,
         .healthCheck true])) := by
  have hv := semver_ne_empty hmm
  refine ⟨?_, ?_, ?_, ?_, ?_, ?_, ?_, ?_, ?_⟩
  · intro env r oid vpc cid kc hr hc1 hc2 hc3 hc4 hoidc hoid hvpc hcmd hlook hpoll hcreds hhealth
    constructor <;>
      simp [CreateCluster, stsStep, hcpStep, createCluster, isCoreCreateStep,
        hH, hname, hv, hmm, hr, hoidc, hoid, hvpc, hcmd, hlook, hpoll, hcreds, hhealth,
        hc1, hc2, hc3, hc4, validate_ok, subnet_join_ne_empty, filledOptions]
  · intro env e hr
    simp [CreateCluster, stsStep, hcpStep, hH, hmm, hr]
  · intro env r e hr hoidc
    simp [CreateCluster, stsStep, hcpStep, hH, hmm, hr, hoidc]
  · intro env r oid e hr hoidc hvpc
    simp [CreateCluster, stsStep, hcpStep, hH, hmm, hr, hoidc, hvpc]
  · intro env r oid vpc e hr hc1 hc2 hc3 hc4 hoidc hoid hvpc hcmd
    simp [CreateCluster, stsStep, hcpStep, createCluster,
      hH, hname, hv, hmm, hr, hoidc, hoid, hvpc, hcmd,
      hc1, hc2, hc3, hc4, validate_ok, subnet_join_ne_empty, filledOptions]
  · intro env r oid vpc e hr hc1 hc2 hc3 hc4 hoidc hoid hvpc hcmd hlook
    simp [CreateCluster, stsStep, hcpStep, createCluster,
      hH, hname, hv, hmm, hr, hoidc, hoid, hvpc, hcmd, hlook,
      hc1, hc2, hc3, hc4, validate_ok, subnet_join_ne_empty, filledOptions]
  · intro env r oid vpc cid e hr hc1 hc2 hc3 hc4 hoidc hoid hvpc hcmd hlook hpoll
    simp [CreateCluster, stsStep, hcpStep, createCluster,
      hH, hname, hv, hmm, hr, hoidc, hoid, hvpc, hcmd, hlook, hpoll,
      hc1, hc2, hc3, hc4, validate_ok, subnet_join_ne_empty, filledOptions]
  · intro env r oid vpc cid e hr hc1 hc2 hc3 hc4 hoidc hoid hvpc hcmd hlook hpoll hcreds
    simp [CreateCluster, stsStep, hcpStep, createCluster,
      hH, hname, hv, hmm, hr, hoidc, hoid, hvpc, hcmd, hlook, hpoll, hcreds,
      hc1, hc2, hc3, hc4, validate_ok, subnet_join_ne_empty, filledOptions]
  · intro env r oid vpc cid kc e hr hc1 hc2 hc3 hc4 hoidc hoid hvpc hcmd hlook hpoll hcreds hhealth
    simp [CreateCluster, stsStep, hcpStep, createCluster,
      hH, hname, hv, hmm, hr, hoidc, hoid, hvpc, hcmd, hlook, hpoll, hcreds, hhealth,
      hc1, hc2, hc3, hc4, validate_ok, subnet_join_ne_empty, filledOptions]

/-- Witness for C1: the all-collaborators-succeed hosted-control-plane run
on concrete inputs returns the looked-up cluster id and performs the six
steps in order. -/
theorem c1_create_order_witness :
    (CreateCluster wEnvAllOk wOptsHCP).1 = .ok "cid-1" ∧
    ((CreateCluster wEnvAllOk wOptsHCP).2).filter isCoreCreateStep =
      [.rolesEnsure "c1" "4.12" "",
       .oidcEnsure "c1" "inst-arn" false,
       .vpcCreate "c1" "us-east-1",
       .rosaCreateCluster "c1",
       .readyPoll "cid-1" 30,
       .healthCheck true] :=
  (c1_create_order wOptsHCP "4.12" rfl (by decide) (by decide)).1
    wEnvAllOk ⟨"cp-arn", "inst-arn", "supp-arn", "work-arn"⟩ "oidc-1"
    ⟨"subnet-priv", "subnet-pub"⟩ "cid-1" "kubeconfig"
    rfl (by decide) (by decide) (by decide) (by decide) rfl (by decide) rfl rfl rfl rfl rfl rfl


/-- The delete-side STS default leaves `ClusterID` unchanged. -/
@[simp] theorem setDefaultDelete_ClusterID (o : DeleteClusterOptions) :
    (setDefaultDeleteClusterOptions o).ClusterID = o.ClusterID := by
  unfold setDefaultDeleteClusterOptions; split <;> rfl

/-- The delete-side STS default leaves `ClusterName` unchanged. -/
@[simp] theorem setDefaultDelete_ClusterName (o : DeleteClusterOptions) :
    (setDefaultDeleteClusterOptions o).ClusterName = o.ClusterName := by
  unfold setDefaultDeleteClusterOptions; split <;> rfl

/-- The delete-side STS default leaves `HostedCP` unchanged. -/
@[simp] theorem setDefaultDelete_HostedCP (o : DeleteClusterOptions) :
    (setDefaultDeleteClusterOptions o).HostedCP = o.HostedCP := by
  unfold setDefaultDeleteClusterOptions; split <;> rfl

/-- The delete-side STS default sets exactly `STS := STS ∨ HostedCP`. -/
@[simp] theorem setDefaultDelete_STS (o : DeleteClusterOptions) :
    (setDefaultDeleteClusterOptions o).STS = (o.STS || o.HostedCP) := by
  unfold setDefaultDeleteClusterOptions
  cases hH : o.HostedCP <;> simp [hH]

/-- Source: C2. For a hosted-control-plane delete with a non-empty cluster
id (STS is defaulted to true): the attached OIDC config is resolved before
anything else and its failure aborts the whole run with only that call
made; when every step succeeds the calls are exactly resolve, delete
submission, absence poll (30 attempts), operator-role deletion,
OIDC-provider-registration deletion, OIDC-config deletion (by the resolved
id), network destroy, account-role deletion, in that order — so
operator-role and provider deletion both strictly precede OIDC-config
deletion; and the failure of any step aborts the remaining sequence, so
account-role deletion only happens after every earlier step succeeded. -/
theorem c2_delete_order (o : DeleteClusterOptions)
    (hH : o.HostedCP = true) (hid : o.ClusterID ≠ "") :
    (∀ (env : DeleteEnv) (e : RosaError),
      env.oidcResolveResult = .error e →
      DeleteCluster env o = (.error (.wrapped "delete" e),
        [.oidcResolve o.ClusterID])) ∧
    (∀ (env : DeleteEnv) (oid : String),
      env.oidcResolveResult = .ok oid →
      env.deleteCmdResult = .ok () →
      env.deletedPollResult = .ok () →
      env.opRolesResult = .ok () →
      env.oidcProviderResult = .ok () →
      env.oidcConfigDeleteResult = .ok () →
      env.vpcDestroyResult = .ok () →
      env.accountRolesDeleteResult = .ok () →
      DeleteCluster env o = (.ok (),
        [.oidcResolve o.ClusterID,
         .rosaDeleteCluster o.ClusterID,
         .deletedPoll o.ClusterName 30,
         .opRolesDelete o.ClusterID,
         .oidcProviderDelete o.ClusterID,
         .oidcConfigDelete oid,
         .vpcDestroy o.ClusterName env.region,
         .accountRolesDelete o.ClusterName])) ∧
    (∀ (env : DeleteEnv) (oid : String) (e : RosaError),
      env.oidcResolveResult = .ok oid →
      env.deleteCmdResult = .error e →
      DeleteCluster env o = (.error (.wrapped "delete" e),
        [.oidcResolve o.ClusterID, .rosaDeleteCluster o.ClusterID])) ∧
    (∀ (env : DeleteEnv) (oid : String) (e : RosaError),
      env.oidcResolveResult = .ok oid →
      env.deleteCmdResult = .ok () →
      env.deletedPollResult = .error e →
      DeleteCluster env o = (.error (.wrapped "delete" e),
        [.oidcResolve o.ClusterID, .rosaDeleteCluster o.ClusterID,
         .deletedPoll o.ClusterName 30])) ∧
    (∀ (env : DeleteEnv) (oid : String) (e : RosaError),
      env.oidcResolveResult = .ok oid →
      env.deleteCmdResult = .ok () →
      env.deletedPollResult = .ok () →
      env.opRolesResult = .error e →
      DeleteCluster env o = (.error (.wrapped "delete" e),
        [.oidcResolve o.ClusterID, .rosaDeleteCluster o.ClusterID,
         .deletedPoll o.ClusterName 30, .opRolesDelete o.ClusterID])) ∧
    (∀ (env : DeleteEnv) (oid : String) (e : RosaError),
      env.oidcResolveResult = .ok oid →
      env.deleteCmdResult = .ok () →
      env.deletedPollResult = .ok () →
      env.opRolesResult = .ok () →
      env.oidcProviderResult = .error e →
      DeleteCluster env o = (.error (.wrapped "delete" e),
        [.oidcResolve o.ClusterID, .rosaDeleteCluster o.ClusterID,
         .deletedPoll o.ClusterName 30, .opRolesDelete o.ClusterID,
         .oidcProviderDelete o.ClusterID])) ∧
    (∀ (env : DeleteEnv) (oid : String) (e : RosaError),
      env.oidcResolveResult = .ok oid →
      env.deleteCmdResult = .ok () →
      env.deletedPollResult = .ok () →
      env.opRolesResult = .ok () →
      env.oidcProviderResult = .ok () →
      env.oidcConfigDeleteResult = .error e →
      DeleteCluster env o = (.error (.wrapped "delete" e),
        [.oidcResolve o.ClusterID, .rosaDeleteCluster o.ClusterID,
         .deletedPoll o.ClusterName 30, .opRolesDelete o.ClusterID,
         .oidcProviderDelete o.ClusterID, .oidcConfigDelete oid])) ∧
    (∀ (env : DeleteEnv) (oid : String) (e : RosaError),
      env.oidcResolveResult = .ok oid →
      env.deleteCmdResult = .ok () →
      env.deletedPollResult = .ok () →
      env.opRolesResult = .ok () →
      env.oidcProviderResult = .ok () →
      env.oidcConfigDeleteResult = .ok () →
      env.vpcDestroyResult = .error e →
      DeleteCluster env o = (.error (.wrapped "delete" e),
        [.oidcResolve o.ClusterID, .rosaDeleteCluster o.ClusterID,
         .deletedPoll o.ClusterName 30, .opRolesDelete o.ClusterID,
         .oidcProviderDelete o.ClusterID, .oidcConfigDelete oid,
         .vpcDestroy o.ClusterName env.region])) ∧
    (∀ (env : DeleteEnv) (oid : String) (e : RosaError),
      env.oidcResolveResult = .ok oid →
      env.deleteCmdResult = .ok () →
      env.deletedPollResult = .ok () →
      env.opRolesResult = .ok () →
      env.oidcProviderResult = .ok () →
      env.oidcConfigDeleteResult = .ok () →
      env.vpcDestroyResult = .ok () →
      env.accountRolesDeleteResult = .error e →
      DeleteCluster env o = (.error (.wrapped "delete" e),
        [.oidcResolve o.ClusterID, .rosaDeleteCluster o.ClusterID,
         .deletedPoll o.ClusterName 30, .opRolesDelete o.ClusterID,
         .oidcProviderDelete o.ClusterID, .oidcConfigDelete oid,
         .vpcDestroy o.ClusterName env.region,
         .accountRolesDelete o.ClusterName])) := by
  refine ⟨?_, ?_, ?_, ?_, ?_, ?_, ?_, ?_, ?_⟩
  · intro env e h1
    simp [DeleteCluster, deleteClusterCmd, hH, hid, h1]
  · intro env oid h1 h2 h3 h4 h5 h6 h7 h8
    simp [DeleteCluster, deleteClusterCmd, hH, hid, h1, h2, h3, h4, h5, h6, h7, h8]
  · intro env oid e h1 h2
    simp [DeleteCluster, deleteClusterCmd, hH, hid, h1, h2]
  · intro env oid e h1 h2 h3
    simp [DeleteCluster, deleteClusterCmd, hH, hid, h1, h2, h3]
  · intro env oid e h1 h2 h3 h4
    simp [DeleteCluster, deleteClusterCmd, hH, hid, h1, h2, h3, h4]
  · intro env oid e h1 h2 h3 h4 h5
    simp [DeleteCluster, deleteClusterCmd, hH, hid, h1, h2, h3, h4, h5]
  · intro env oid e h1 h2 h3 h4 h5 h6
    simp [DeleteCluster, deleteClusterCmd, hH, hid, h1, h2, h3, h4, h5, h6]
  · intro env oid e h1 h2 h3 h4 h5 h6 h7
    simp [DeleteCluster, deleteClusterCmd, hH, hid, h1, h2, h3, h4, h5, h6, h7]
  · intro env oid e h1 h2 h3 h4 h5 h6 h7 h8
    simp [DeleteCluster, deleteClusterCmd, hH, hid, h1, h2, h3, h4, h5, h6, h7, h8]

/-- Witness for C2: the all-collaborators-succeed hosted-control-plane
delete on concrete inputs performs the eight calls in order. -/
theorem c2_delete_order_witness :
    DeleteCluster wDelEnvAllOk wDelOpts = (.ok (),
      [.oidcResolve "cid-1", .rosaDeleteCluster "cid-1", .deletedPoll "c1" 30,
       .opRolesDelete "cid-1", .oidcProviderDelete "cid-1", .oidcConfigDelete "oidc-1",
       .vpcDestroy "c1" "us-east-1", .accountRolesDelete "c1"]) :=
  (c2_delete_order wDelOpts rfl (by decide)).2.1
    wDelEnvAllOk "oidc-1" rfl rfl rfl rfl rfl rfl rfl rfl

end Rosa
